import Mathlib

/-!
Verification of the midi-request-trigger router/dispatch engine.

The definitions below are a shallow embedding of the Go sources
(midi_router.go of the MQTT-era revision): the trigger data model, the
MIDI-event dispatch path (`sendRequest`), the HTTP request path
(`Handler`), the MQTT message path (`MqttOnEvent`) and the connection
supervisor (`Connect`).  External effects (MQTT publishes, outbound HTTP
requests, outbound MIDI messages, HTTP responses) are reified as values;
fallible library calls (midi.SendTo, send, url.Parse, http.NewRequest)
are abstracted into environment records of success flags.
-/

namespace MidiRequestTrigger

/-- Embeds `MQTTConfig` (midi_router.go): broker coordinates, base topic
and the two disable flags. -/
structure MQTTConfig where
  host : String
  port : Nat
  clientId : String
  user : String
  password : String
  topic : String
  disableMidiFirehose : Bool
  disableConfigSend : Bool
deriving Repr, DecidableEq

/-- Embeds `NoteTrigger` (midi_router.go): a rule fired by inbound MIDI
events.  `mqttPayload = some s` models a configured literal payload whose
JSON marshalling is `s`; `none` models the nil payload (default midi-info
record is synthesized).  Delays are in nanoseconds as Go durations. -/
structure NoteTrigger where
  channel : Nat
  matchAllChannels : Bool
  note : Nat
  matchAllNotes : Bool
  velocity : Nat
  matchAllVelocities : Bool
  delayBefore : Nat
  delayAfter : Nat
  mqttTopic : String
  mqttPayload : Option String
  midiInfoInRequest : Bool
  insecureSkipVerify : Bool
  url : String
  method : String
  body : String
deriving Repr, DecidableEq

/-- Embeds `RequestTrigger` (midi_router.go): a rule fired by inbound
HTTP requests or MQTT messages, producing an outbound MIDI note. -/
structure RequestTrigger where
  channel : Nat
  note : Nat
  velocity : Nat
  midiInfoInRequest : Bool
  mqttTopic : String
  mqttSubTopic : String
  disallowPayload : Bool
  uri : String
deriving Repr, DecidableEq

/-- Embeds `MidiRouter` (midi_router.go).  The runtime handle
`MqttClient` is abstracted to the boolean `mqttClientBound`
(`MqttClient != nil`); the MIDI output handle is abstracted into the
send environment `MidiEnv` below. -/
structure MidiRouter where
  name : String
  device : String
  mqtt : MQTTConfig
  disableListener : Bool
  noteTriggers : List NoteTrigger
  requestTriggers : List RequestTrigger
  logLevel : Nat
  mqttClientBound : Bool
deriving Repr, DecidableEq

/-- An outbound MIDI message handed to the driver: `midi.NoteOn` or
`midi.NoteOff`. -/
inductive MidiMsg where
  | noteOn (channel note velocity : Nat)
  | noteOff (channel note : Nat)
deriving Repr, DecidableEq

/-- Observable network actions of the MIDI-event dispatch path: an MQTT
publish (topic, payload) or an outbound HTTP request.  `midiInfo` is the
channel/note/velocity triple appended as query parameters when
`midi_info_in_request` is set, `none` otherwise. -/
inductive Action where
  | mqttPublish (topic : String) (payload : String)
  | httpRequest (method url : String) (midiInfo : Option (Nat × Nat × Nat)) (body : String)
deriving Repr, DecidableEq

/-- Environment abstracting the MIDI driver: whether `midi.SendTo`
returns a sender, and whether `send(msg)` succeeds per message. -/
structure MidiEnv where
  senderOk : Bool
  sendOk : MidiMsg → Bool

/-- Environment abstracting the HTTP client library on the outbound
path: whether `url.Parse` succeeds for a given URL string and whether
`http.NewRequest` succeeds. -/
structure HttpEnv where
  urlOk : String → Bool
  reqOk : Bool

/-- JSON marshalling of `MQTTPayload` (field order channel, note,
velocity as in the Go struct); `json.Marshal` cannot fail on it. -/
def defaultPayload (channel note velocity : Nat) : String :=
  "\x7b\"channel\":" ++ toString channel ++ ",\"note\":" ++ toString note ++
    ",\"velocity\":" ++ toString velocity ++ "\x7d"

/-- The match condition of `sendRequest` (midi_router.go line 539):
`(trig.Channel == channel || trig.MatchAllChannels) && (trig.Note == note
|| trig.MatchAllNotes) && (trig.Velocity == velocity ||
trig.MatchAllVelocities)`. -/
def noteTriggerMatches (trig : NoteTrigger) (channel note velocity : Nat) : Bool :=
  (trig.channel == channel || trig.matchAllChannels) &&
    (trig.note == note || trig.matchAllNotes) &&
    (trig.velocity == velocity || trig.matchAllVelocities)

/-- The MQTT branch of a matching note trigger (midi_router.go lines
547-572): publish only when a topic is set and a client is bound; the
literal payload if provided, else the default midi-info record. -/
def noteTriggerMqttActions (clientBound : Bool) (trig : NoteTrigger)
    (channel note velocity : Nat) : List Action :=
  if trig.mqttTopic ≠ "" ∧ clientBound = true then
    match trig.mqttPayload with
    | some s => [Action.mqttPublish trig.mqttTopic s]
    | none => [Action.mqttPublish trig.mqttTopic (defaultPayload channel note velocity)]
  else []

/-- The HTTP branch of a matching note trigger (midi_router.go lines
575-642): only when a URL is set; method defaults to GET; midi info is
attached when configured; `url.Parse` or `http.NewRequest` failure
abandons the action (`continue`). -/
def noteTriggerHttpActions (env : HttpEnv) (trig : NoteTrigger)
    (channel note velocity : Nat) : List Action :=
  if trig.url ≠ "" then
    let method := if trig.method = "" then "GET" else trig.method
    if env.urlOk trig.url = true then
      let info := if trig.midiInfoInRequest then some (channel, note, velocity) else none
      if env.reqOk = true then [Action.httpRequest method trig.url info trig.body]
      else []
    else []
  else []

/-- One iteration of the `sendRequest` trigger loop (midi_router.go lines
535-647): a non-matching trigger contributes nothing; a matching one
fires its MQTT branch then its HTTP branch. -/
def noteTriggerActions (clientBound : Bool) (env : HttpEnv) (trig : NoteTrigger)
    (channel note velocity : Nat) : List Action :=
  if noteTriggerMatches trig channel note velocity = true then
    noteTriggerMqttActions clientBound trig channel note velocity ++
      noteTriggerHttpActions env trig channel note velocity
  else []

/-- The firehose publish at the top of `sendRequest` (midi_router.go
lines 517-532): when a client is bound and the firehose is not disabled,
publish the default payload to `<base-topic>/cmd`, before and independent
of the trigger loop. -/
def firehoseActions (r : MidiRouter) (channel note velocity : Nat) : List Action :=
  if r.mqttClientBound = true ∧ r.mqtt.disableMidiFirehose = false then
    [Action.mqttPublish (r.mqtt.topic ++ "/cmd") (defaultPayload channel note velocity)]
  else []

/-- Embeds `MidiRouter.sendRequest` (midi_router.go lines 516-648) as the
ordered list of observable actions for one inbound MIDI event. -/
def sendRequestActions (env : HttpEnv) (r : MidiRouter)
    (channel note velocity : Nat) : List Action :=
  firehoseActions r channel note velocity ++
    (r.noteTriggers.map
      (fun trig => noteTriggerActions r.mqttClientBound env trig channel note velocity)).flatten

/-- The regular expression `^[0-9]+$` of the Handler (midi_router.go line
662): one or more decimal digits and nothing else. -/
def isNumString (s : String) : Bool :=
  !s.data.isEmpty && s.data.all (fun c => c.isDigit)

/-- Numeric value of a decimal digit string. -/
def decVal (s : String) : Nat :=
  s.data.foldl (fun n c => n * 10 + c.toNat - 48) 0

/-- Go's `strings.HasPrefix`. -/
def goHasPrefix (s pre : String) : Bool := pre.data.isPrefixOf s.data

/-- Largest value of Go's 64-bit `int`.  (On a 32-bit platform the bound
is smaller; every theorem below only uses that it exceeds 255.) -/
def int64Max : Nat := 9223372036854775807

/-- Go's `strconv.Atoi` on a string already known to consist of decimal
digits: the parsed value and whether `err == nil`.  On overflow Atoi
returns the saturated maximum together with `ErrRange`. -/
def atoiOfDigits (s : String) : Nat × Bool :=
  if decVal s ≤ int64Max then (decVal s, true) else (int64Max, false)

/-- The channel override of the Handler (midi_router.go lines 665-671):
`if numRx.MatchString(ch) { i, err := strconv.Atoi(ch); if err != nil &&
i <= 255 && i >= 0 { channel = uint8(i) } }`, applied only when
`midi_info_in_request` is set.  `uint8(i)` truncates mod 256. -/
def handlerChannel (t : RequestTrigger) (q : String → String) : Nat :=
  if t.midiInfoInRequest = true then
    let ch := q "channel"
    if isNumString ch = true then
      let p := atoiOfDigits ch
      if p.2 = false ∧ p.1 ≤ 255 then p.1 % 256 else t.channel
    else t.channel
  else t.channel

/-- The note override of the Handler (midi_router.go lines 673-679):
guard `err != nil && i < 255 && i >= 0`. -/
def handlerNote (t : RequestTrigger) (q : String → String) : Nat :=
  if t.midiInfoInRequest = true then
    let key := q "note"
    if isNumString key = true then
      let p := atoiOfDigits key
      if p.2 = false ∧ p.1 < 255 then p.1 % 256 else t.note
    else t.note
  else t.note

/-- The velocity override of the Handler (midi_router.go lines 681-687):
guard `err != nil && i < 128 && i >= 0`. -/
def handlerVelocity (t : RequestTrigger) (q : String → String) : Nat :=
  if t.midiInfoInRequest = true then
    let vel := q "velocity"
    if isNumString vel = true then
      let p := atoiOfDigits vel
      if p.2 = false ∧ p.1 < 128 then p.1 % 256 else t.velocity
    else t.velocity
  else t.velocity

/-- The outbound message construction repeated verbatim at the three
synthesis sites (midi_router.go lines 699-702, 771-774, 803-806):
`msg := midi.NoteOn(channel, note, velocity); if velocity == 0 { msg =
midi.NoteOff(channel, note) }`. -/
def mkMsg (channel note velocity : Nat) : MidiMsg :=
  if velocity = 0 then MidiMsg.noteOff channel note
  else MidiMsg.noteOn channel note velocity

/-- The Handler's match test (midi_router.go line 655):
`t.URI != "" && t.URI == r.URL.RawPath`. -/
def reqTriggerFires (rawPath : String) (t : RequestTrigger) : Bool :=
  t.uri != "" && t.uri == rawPath

/-- The message the Handler synthesizes for a firing trigger. -/
def handlerMsg (t : RequestTrigger) (q : String → String) : MidiMsg :=
  mkMsg (handlerChannel t q) (handlerNote t q) (handlerVelocity t q)

/-- Result of one HTTP request through the Handler: the MIDI messages
successfully sent and the HTTP statuses written, in order. -/
structure HandlerResult where
  sent : List MidiMsg
  responses : List Nat
deriving Repr, DecidableEq

/-- Embeds `MidiRouter.Handler` (midi_router.go lines 651-716) over the
trigger list.  Each matching trigger computes effective values, acquires
a sender (failure: 500 and return), sends note-on, or note-off when the
velocity is 0 (failure: 500 and return), then writes a 204. -/
def handlerLoop (env : MidiEnv) (rawPath : String) (q : String → String) :
    List RequestTrigger → HandlerResult
  | [] => ⟨[], []⟩
  | t :: ts =>
    if reqTriggerFires rawPath t = true then
      if env.senderOk = false then ⟨[], [500]⟩
      else if env.sendOk (handlerMsg t q) = false then ⟨[], [500]⟩
      else
        let rest := handlerLoop env rawPath q ts
        ⟨handlerMsg t q :: rest.sent, 204 :: rest.responses⟩
    else handlerLoop env rawPath q ts

/-- Outcome of `json.Unmarshal` on an inbound MQTT payload with respect
to the `MQTTPayload` record: the payload is empty, fails to decode, or
decodes to a full channel/note/velocity record. -/
inductive Payload where
  | empty
  | invalid
  | valid (channel note velocity : Nat)
deriving Repr, DecidableEq

/-- The MQTT topic match of `MqttOnEvent` (midi_router.go lines 741-742):
`(t.MqttTopic != "" && topic == t.MqttTopic) || (t.MqttSubTopic != "" &&
topic == base + "/" + t.MqttSubTopic)`. -/
def reqTriggerTopicMatches (base topic : String) (t : RequestTrigger) : Bool :=
  (t.mqttTopic != "" && topic == t.mqttTopic) ||
    (t.mqttSubTopic != "" && topic == base ++ "/" ++ t.mqttSubTopic)

/-- The payload resolution of the trigger loop in `MqttOnEvent`
(midi_router.go lines 746-761): decode only when payload is allowed and
non-empty; decode failure yields `none` (the handler returns); otherwise
the effective channel/note/velocity. -/
def payloadResolve (t : RequestTrigger) (p : Payload) : Option (Nat × Nat × Nat) :=
  match p with
  | Payload.empty => some (t.channel, t.note, t.velocity)
  | Payload.invalid =>
      if t.disallowPayload = true then some (t.channel, t.note, t.velocity) else none
  | Payload.valid channel note velocity =>
      if t.disallowPayload = true then some (t.channel, t.note, t.velocity)
      else some (channel, note, velocity)

/-- Result of one MQTT message through `MqttOnEvent`: the MIDI messages
successfully sent, and whether a status publish was made. -/
structure MqttResult where
  sent : List MidiMsg
  statusPublished : Bool
deriving Repr, DecidableEq

/-- The trigger loop of `MqttOnEvent` (midi_router.go lines 740-783):
the boolean is false when the handler returned early (decode failure,
sender-acquisition failure or send failure all `return`). -/
def mqttTriggerLoop (env : MidiEnv) (base topic : String) (p : Payload) :
    List RequestTrigger → List MidiMsg × Bool
  | [] => ([], true)
  | t :: ts =>
    if reqTriggerTopicMatches base topic t = true then
      match payloadResolve t p with
      | none => ([], false)
      | some (channel, note, velocity) =>
        if env.senderOk = false then ([], false)
        else if env.sendOk (mkMsg channel note velocity) = false then ([], false)
        else
          let rest := mqttTriggerLoop env base topic p ts
          (mkMsg channel note velocity :: rest.1, rest.2)
    else mqttTriggerLoop env base topic p ts

/-- The part of `MqttOnEvent` after the trigger loop (midi_router.go
lines 785-817), over the loop's result: nothing more if the loop
returned early; else the direct-send branch for any topic having
`<base-topic>/send` as a string prefix (empty payload: nothing, decode
failure or send failure: return), else the status branch on exactly
`<base-topic>/status/check`, gated by `DisableConfigSend` inside
`SendStatus` (lines 719-733). -/
def mqttAfterLoop (env : MidiEnv) (r : MidiRouter) (topic : String) (p : Payload)
    (loop : List MidiMsg × Bool) : MqttResult :=
  if loop.2 = false then ⟨loop.1, false⟩
  else if goHasPrefix topic (r.mqtt.topic ++ "/send") = true then
    match p with
    | Payload.empty => ⟨loop.1, false⟩
    | Payload.invalid => ⟨loop.1, false⟩
    | Payload.valid channel note velocity =>
      if env.senderOk = false then ⟨loop.1, false⟩
      else if env.sendOk (mkMsg channel note velocity) = false then ⟨loop.1, false⟩
      else ⟨loop.1 ++ [mkMsg channel note velocity], false⟩
  else if topic == r.mqtt.topic ++ "/status/check" then
    ⟨loop.1, !r.mqtt.disableConfigSend⟩
  else ⟨loop.1, false⟩

/-- Embeds `MidiRouter.MqttOnEvent` (midi_router.go lines 736-818): the
trigger loop over the request triggers, then the direct-send and status
branches. -/
def mqttOnEvent (env : MidiEnv) (r : MidiRouter) (topic : String) (p : Payload) :
    MqttResult :=
  mqttAfterLoop env r topic p (mqttTriggerLoop env r.mqtt.topic topic p r.requestTriggers)

/-- The guard of the MQTT session goroutine in `Connect` (midi_router.go
line 922): `r.MQTT.Host != "" && r.MQTT.Port != 0`. -/
def mqttSessionAttempted (r : MidiRouter) : Bool :=
  r.mqtt.host != "" && r.mqtt.port != 0

/-- Outcome of the MQTT session goroutine body: `log.Fatalf` terminates
the process, otherwise the session is up with the listed subscriptions. -/
inductive ConnectOutcome where
  | fatalExit
  | connected (subscribed : List String)
deriving Repr, DecidableEq

/-- The subscriptions made after a successful MQTT connect
(midi_router.go lines 946-953). -/
def subscribeTriggerTopics (r : MidiRouter) : List String :=
  (r.requestTriggers.map (fun t =>
    (if t.mqttTopic != "" then [t.mqttTopic] else []) ++
      (if t.mqttSubTopic != "" then [r.mqtt.topic ++ "/" ++ t.mqttSubTopic] else []))).flatten

/-- Embeds the body of the MQTT session goroutine (midi_router.go lines
924-955): a failed connect hits `log.Fatalf` (process exit; the retry
code after it is unreachable), a successful one subscribes to
`<base>/send`, `<base>/status/check` and the trigger topics. -/
def mqttConnectRun (r : MidiRouter) (connectOk : Bool) : ConnectOutcome :=
  if connectOk = false then ConnectOutcome.fatalExit
  else ConnectOutcome.connected
    ([r.mqtt.topic ++ "/send", r.mqtt.topic ++ "/status/check"] ++ subscribeTriggerTopics r)

/-- Outcome of a MIDI acquisition loop (output port, midi_router.go lines
832-858, or input listener, lines 863-919) after a finite list of
attempt results: bound after some failures, or still retrying.  There is
no fatal outcome on these paths. -/
inductive AcquireOutcome where
  | bound (failures : Nat)
  | stillRetrying (failures : Nat)
deriving Repr, DecidableEq

/-- The MIDI acquisition loop over a list of attempt outcomes: each
failure loops again after the backoff; the first success binds. -/
def midiAcquireRun : List Bool → AcquireOutcome
  | [] => AcquireOutcome.stillRetrying 0
  | ok :: rest =>
    if ok = true then AcquireOutcome.bound 0
    else
      match midiAcquireRun rest with
      | AcquireOutcome.bound n => AcquireOutcome.bound (n + 1)
      | AcquireOutcome.stillRetrying n => AcquireOutcome.stillRetrying (n + 1)

/-- The sleeps (in seconds) taken by a MIDI acquisition loop:
`time.Sleep(time.Minute)` after every failed attempt. -/
def midiAcquireSleeps : List Bool → List Nat
  | [] => []
  | ok :: rest => if ok = true then [] else 60 :: midiAcquireSleeps rest

/-- Number of MQTT publishes to a given topic in an action list. -/
def countPublishTo (topic : String) (l : List Action) : Nat :=
  (l.filter (fun a => match a with
    | Action.mqttPublish t _ => t == topic
    | _ => false)).length

/-- A driver environment in which sender acquisition and every send
succeed. -/
def envAllOk : MidiEnv := ⟨true, fun _ => true⟩

/-- An HTTP client environment in which parsing and request construction
succeed. -/
def henvAllOk : HttpEnv := ⟨fun _ => true, true⟩

/-- Query of the request `GET /x?channel=5&note=6&velocity=7`: every
parameter present, all-digits and in range. -/
def qC1 : String → String := fun k =>
  if k = "channel" then "5" else if k = "note" then "6"
  else if k = "velocity" then "7" else ""

/-- A RequestTrigger with defaults channel 1, note 2, velocity 3,
`midi_info_in_request` enabled and URI `/x`. -/
def tC1 : RequestTrigger := ⟨1, 2, 3, true, "", "", false, "/x"⟩

/-- A query function returning no parameters. -/
def qNone : String → String := fun _ => ""

/-- A RequestTrigger whose URI is the empty string. -/
def tEmptyUri : RequestTrigger := ⟨1, 2, 3, false, "", "", false, ""⟩

/-- An MQTT broker configuration with base topic `m`. -/
def cfgM : MQTTConfig := ⟨"h", 1883, "c", "u", "p", "m", false, false⟩

/-- A RequestTrigger listening on absolute topic `a` that allows payload
override. -/
def tMqttA : RequestTrigger := ⟨0, 0, 0, false, "a", "", false, ""⟩

/-- A RequestTrigger listening on absolute topic `a` that disallows
payload, with defaults channel 1, note 2, velocity 3. -/
def tMqttB : RequestTrigger := ⟨1, 2, 3, false, "a", "", true, ""⟩

/-- A router with base topic `m` and the two triggers on topic `a`. -/
def rC3 : MidiRouter := ⟨"r", "d", cfgM, false, [], [tMqttA, tMqttB], 0, true⟩

/-- The same router with only the payload-disallowing trigger. -/
def rC3b : MidiRouter := ⟨"r", "d", cfgM, false, [], [tMqttB], 0, true⟩

/-- A RequestTrigger on sub-topic `send` (resolving to MQTT topic
`m/send`) that allows payload override. -/
def tC6 : RequestTrigger := ⟨9, 9, 9, false, "", "send", false, ""⟩

/-- A router with base topic `m` whose one request trigger listens on
sub-topic `send`. -/
def rC6 : MidiRouter := ⟨"r", "d", cfgM, false, [], [tC6], 0, true⟩

/-- A router with base topic `m` and no triggers. -/
def rPlain : MidiRouter := ⟨"r", "d", cfgM, false, [], [], 0, true⟩

/-- A NoteTrigger on channel 7 with `match_all_notes` and
`match_all_velocities` set, publishing to topic `other`. -/
def ntW : NoteTrigger := ⟨7, false, 0, true, 0, true, 0, 0, "other", none, false, false, "", "", ""⟩

/-- A NoteTrigger with neither an MQTT topic nor a URL (inert). -/
def ntInert : NoteTrigger := ⟨0, true, 0, true, 0, true, 0, 0, "", none, false, false, "", "", ""⟩

/-- The router `rPlain` with the single inert note trigger. -/
def rInert : MidiRouter := ⟨"r", "d", cfgM, false, [ntInert], [], 0, true⟩

/-- The router `rPlain` with two match-all note triggers publishing to
topic `other`. -/
def rTwo : MidiRouter := ⟨"r", "d", cfgM, false, [ntW, ntW], [], 0, true⟩

/-- A RequestTrigger with default velocity 0 on URI `/off`. -/
def tOff : RequestTrigger := ⟨1, 2, 0, false, "", "", false, "/off"⟩

/-- A RequestTrigger on sub-topic `x` (resolving to `m/x`) that allows
payload override, with defaults channel 9, note 9, velocity 9. -/
def tC6W : RequestTrigger := ⟨9, 9, 9, false, "", "x", false, ""⟩

/-- A router with base topic `m` whose one request trigger listens on
sub-topic `x`. -/
def rC6W : MidiRouter := ⟨"r", "d", cfgM, false, [], [tC6W], 0, true⟩

/- Helper lemmas -/

theorem atoiOfDigits_dead_guard (s : String) (bound : Nat) (hb : bound ≤ 256) :
    ¬ ((atoiOfDigits s).2 = false ∧ (atoiOfDigits s).1 < bound) := by
  unfold atoiOfDigits
  by_cases hd : decVal s ≤ int64Max
  · simp [hd]
  · simp only [hd, if_false]
    rintro ⟨-, hlt⟩
    have : (256 : Nat) ≤ int64Max := by decide
    omega

theorem handlerChannel_eq (t : RequestTrigger) (q : String → String) :
    handlerChannel t q = t.channel := by
  unfold handlerChannel
  by_cases hm : t.midiInfoInRequest = true
  · by_cases hn : isNumString (q "channel") = true
    · have hdead := atoiOfDigits_dead_guard (q "channel") 256 (by omega)
      have : ¬ ((atoiOfDigits (q "channel")).2 = false ∧ (atoiOfDigits (q "channel")).1 ≤ 255) := by
        intro ⟨h1, h2⟩; exact hdead ⟨h1, by omega⟩
      simp [hm, hn, this]
    · simp [hm, hn]
  · simp [hm]

theorem handlerNote_eq (t : RequestTrigger) (q : String → String) :
    handlerNote t q = t.note := by
  unfold handlerNote
  by_cases hm : t.midiInfoInRequest = true
  · by_cases hn : isNumString (q "note") = true
    · simp [hm, hn, atoiOfDigits_dead_guard (q "note") 255 (by omega)]
    · simp [hm, hn]
  · simp [hm]

theorem handlerVelocity_eq (t : RequestTrigger) (q : String → String) :
    handlerVelocity t q = t.velocity := by
  unfold handlerVelocity
  by_cases hm : t.midiInfoInRequest = true
  · by_cases hn : isNumString (q "velocity") = true
    · simp [hm, hn, atoiOfDigits_dead_guard (q "velocity") 128 (by omega)]
    · simp [hm, hn]
  · simp [hm]

/- Claim theorems -/

/-- C1.  The claim states that with `midi_info_in_request=true` each of
channel/note/velocity is overridden from the query parameters exactly
when the parameter is present, all-digits and in range.  The code
(midi_router.go lines 664-687) guards every override with `err != nil`
where `strconv.Atoi` succeeds on every digit string that fits in an int,
so an in-range parameter never satisfies the guard and the override is
dead code: the effective values always equal the trigger defaults.  At
the failing input (trigger defaults 1/2/3, query
`channel=5&note=6&velocity=7`) the Handler sends note-on(1,2,3) where
the claim and the code's own comments require note-on(5,6,7). -/
theorem handler_query_override_never_applies :
    (∀ (t : RequestTrigger) (q : String → String),
      handlerChannel t q = t.channel ∧ handlerNote t q = t.note ∧
        handlerVelocity t q = t.velocity)
  ∧ isNumString (qC1 "channel") = true ∧ decVal (qC1 "channel") = 5
  ∧ isNumString (qC1 "note") = true ∧ decVal (qC1 "note") = 6
  ∧ isNumString (qC1 "velocity") = true ∧ decVal (qC1 "velocity") = 7
  ∧ (handlerLoop envAllOk "/x" qC1 [tC1]).sent = [MidiMsg.noteOn 1 2 3] :=
  ⟨fun t q => ⟨handlerChannel_eq t q, handlerNote_eq t q, handlerVelocity_eq t q⟩,
    by decide, by decide, by decide, by decide, by decide, by decide, by decide⟩

/-- C2.  A note trigger matches an inbound event iff the channel matches
(exactly or by flag) and the note matches and the velocity matches; with
`match_all_notes` and `match_all_velocities` set it matches every event
on its matched channel; and a non-matching trigger contributes no action
in `sendRequest`. -/
theorem noteTrigger_match_condition (trig : NoteTrigger) (channel note velocity : Nat) :
    (noteTriggerMatches trig channel note velocity = true ↔
      ((trig.channel = channel ∨ trig.matchAllChannels = true) ∧
        (trig.note = note ∨ trig.matchAllNotes = true) ∧
        (trig.velocity = velocity ∨ trig.matchAllVelocities = true)))
  ∧ (trig.matchAllNotes = true → trig.matchAllVelocities = true →
      (noteTriggerMatches trig channel note velocity = true ↔
        (trig.channel = channel ∨ trig.matchAllChannels = true)))
  ∧ (noteTriggerMatches trig channel note velocity = false →
      ∀ (cb : Bool) (env : HttpEnv), noteTriggerActions cb env trig channel note velocity = []) := by
  refine ⟨?_, ?_, ?_⟩
  · simp [noteTriggerMatches, Bool.and_eq_true, Bool.or_eq_true, beq_iff_eq, and_assoc]
  · intro hn hv
    simp [noteTriggerMatches, hn, hv, Bool.and_eq_true, Bool.or_eq_true, beq_iff_eq]
  · intro hfails cb env
    unfold noteTriggerActions
    simp [hfails]

/-- Witness for C2: a trigger on channel 7 with both match-all flags set
matches the event (7, 33, 99). -/
theorem noteTrigger_match_condition_witness :
    noteTriggerMatches ntW 7 33 99 = true :=
  ((noteTrigger_match_condition ntW 7 33 99).2.1 rfl rfl).mpr (Or.inl rfl)

/-- C3 counterexample.  Router `rC3` has two triggers on topic `a`: the
first allows payload override, the second disallows it (so it would send
its defaults).  On an undecodable payload the claim requires the second
trigger's action still to fire; alone it sends note-on(1,2,3), but
behind the decode-failing first trigger the handler sends nothing at
all. -/
theorem mqtt_decode_failure_cex :
    reqTriggerTopicMatches rC3.mqtt.topic "a" tMqttB = true
  ∧ (mqttOnEvent envAllOk rC3b "a" Payload.invalid).sent = [MidiMsg.noteOn 1 2 3]
  ∧ (mqttOnEvent envAllOk rC3 "a" Payload.invalid).sent = [] := by
  refine ⟨by decide, by decide, by decide⟩

/-- C3 amended.  A payload decode failure on a matching trigger that
allows payload aborts the entire `MqttOnEvent` handler: no MIDI event is
sent for that trigger or for any later trigger, and the direct-send and
status branches do not run. -/
theorem mqtt_decode_failure_aborts_handler (env : MidiEnv) (r : MidiRouter)
    (t : RequestTrigger) (ts : List RequestTrigger) (topic : String)
    (hr : r.requestTriggers = t :: ts)
    (hm : reqTriggerTopicMatches r.mqtt.topic topic t = true)
    (hd : t.disallowPayload = false) :
    mqttOnEvent env r topic Payload.invalid = ⟨[], false⟩ := by
  unfold mqttOnEvent
  rw [hr]
  unfold mqttTriggerLoop
  simp [hm, payloadResolve, hd, mqttAfterLoop]

/-- Witness for C3's amended claim at router `rC3`. -/
theorem mqtt_decode_failure_aborts_handler_witness :
    mqttOnEvent envAllOk rC3 "a" Payload.invalid = ⟨[], false⟩ :=
  mqtt_decode_failure_aborts_handler envAllOk rC3 tMqttA [tMqttB] "a" rfl (by decide) rfl

/-- C4 counterexample.  The trigger `tEmptyUri` has URI `""`; a request
with raw path `""` equals that URI, yet the Handler (guard `t.URI != ""
&& t.URI == r.URL.RawPath`, midi_router.go line 655) sends no MIDI event
and writes no response for it even with a fully working driver. -/
theorem handler_empty_uri_cex :
    tEmptyUri.uri = "" ∧ ("" : String) = tEmptyUri.uri
  ∧ handlerLoop envAllOk "" qNone [tEmptyUri] = ⟨[], []⟩ := by
  refine ⟨rfl, rfl, by decide⟩

/-- C4 amended.  For every HTTP request whose raw path equals some
RequestTrigger's non-empty URI: with a working driver the Handler sends
one MIDI event per firing trigger and writes a 204 after each; a
sender-acquisition failure or a send failure at a firing trigger writes
a 500 and stops processing (no event for it or any later trigger). -/
theorem handler_dispatch_amended (env : MidiEnv) (rawPath : String)
    (q : String → String) (ts : List RequestTrigger) (t : RequestTrigger) :
    (env.senderOk = true → (∀ m, env.sendOk m = true) →
      handlerLoop env rawPath q ts =
        ⟨(ts.filter (fun u => reqTriggerFires rawPath u)).map (fun u => handlerMsg u q),
          (ts.filter (fun u => reqTriggerFires rawPath u)).map (fun _ => 204)⟩)
  ∧ (reqTriggerFires rawPath t = true → env.senderOk = false →
      handlerLoop env rawPath q (t :: ts) = ⟨[], [500]⟩)
  ∧ (reqTriggerFires rawPath t = true → env.senderOk = true →
      env.sendOk (handlerMsg t q) = false →
      handlerLoop env rawPath q (t :: ts) = ⟨[], [500]⟩) := by
  refine ⟨?_, ?_, ?_⟩
  · intro hs ha
    induction ts with
    | nil => rfl
    | cons u ts ih =>
      by_cases hf : reqTriggerFires rawPath u = true
      · simp [handlerLoop, hf, hs, ha, ih, List.filter_cons]
      · simp [handlerLoop, hf, ih, List.filter_cons]
  · intro hf hs
    unfold handlerLoop
    simp [hf, hs]
  · intro hf hs hsend
    unfold handlerLoop
    simp [hf, hs, hsend]

/-- Witness for C4's amended claim: the trigger `tC1` on URI `/x` fires,
sends its message and yields a single 204. -/
theorem handler_dispatch_amended_witness :
    handlerLoop envAllOk "/x" qNone [tC1] = ⟨[handlerMsg tC1 qNone], [204]⟩ := by
  have h := (handler_dispatch_amended envAllOk "/x" qNone [tC1] tC1).1 rfl (fun _ => rfl)
  rw [h]
  decide

theorem countPublishTo_append (topic : String) (l1 l2 : List Action) :
    countPublishTo topic (l1 ++ l2) = countPublishTo topic l1 + countPublishTo topic l2 := by
  unfold countPublishTo
  rw [List.filter_append, List.length_append]

theorem mem_noteTriggerMqttActions (cb : Bool) (trig : NoteTrigger)
    (channel note velocity : Nat) (a : Action)
    (ha : a ∈ noteTriggerMqttActions cb trig channel note velocity) :
    ∃ payload, a = Action.mqttPublish trig.mqttTopic payload := by
  unfold noteTriggerMqttActions at ha
  split at ha
  · split at ha <;>
      · rw [List.mem_singleton] at ha
        exact ⟨_, ha⟩
  · simp at ha

theorem mem_noteTriggerHttpActions (env : HttpEnv) (trig : NoteTrigger)
    (channel note velocity : Nat) (a : Action)
    (ha : a ∈ noteTriggerHttpActions env trig channel note velocity) :
    ∃ method url info body, a = Action.httpRequest method url info body := by
  unfold noteTriggerHttpActions at ha
  simp only [List.mem_ite_nil_right, List.mem_singleton] at ha
  exact ⟨_, _, _, _, ha.2.2.2⟩

theorem countPublishTo_noteTrigger_zero (cmdTopic : String) (cb : Bool) (env : HttpEnv)
    (trig : NoteTrigger) (channel note velocity : Nat)
    (h : trig.mqttTopic ≠ cmdTopic) :
    countPublishTo cmdTopic (noteTriggerActions cb env trig channel note velocity) = 0 := by
  have hmem : ∀ a ∈ noteTriggerActions cb env trig channel note velocity,
      (fun a => match a with
        | Action.mqttPublish t _ => t == cmdTopic
        | _ => false) a = false := by
    intro a ha
    unfold noteTriggerActions at ha
    split at ha
    · rw [List.mem_append] at ha
      rcases ha with ha | ha
      · obtain ⟨payload, rfl⟩ := mem_noteTriggerMqttActions cb trig channel note velocity a ha
        simpa using h
      · obtain ⟨method, url, info, body, rfl⟩ :=
          mem_noteTriggerHttpActions env trig channel note velocity a ha
        rfl
    · simp at ha
  unfold countPublishTo
  rw [List.length_eq_zero, List.filter_eq_nil_iff]
  intro a ha
  simp [hmem a ha]

theorem countPublishTo_triggers_zero (cmdTopic : String) (cb : Bool) (env : HttpEnv)
    (channel note velocity : Nat) :
    ∀ l : List NoteTrigger, (∀ trig ∈ l, trig.mqttTopic ≠ cmdTopic) →
      countPublishTo cmdTopic
        ((l.map (fun trig => noteTriggerActions cb env trig channel note velocity)).flatten) = 0 := by
  intro l
  induction l with
  | nil => intro _; rfl
  | cons trig l ih =>
    intro h
    rw [List.map_cons, List.flatten_cons, countPublishTo_append]
    rw [countPublishTo_noteTrigger_zero cmdTopic cb env trig channel note velocity
      (h trig (List.mem_cons_self trig l))]
    rw [ih (fun u hu => h u (List.mem_cons_of_mem trig hu))]

/-- C5.  With an MQTT client bound and the firehose enabled, one inbound
MIDI event produces the firehose publish of the default payload to
`<base-topic>/cmd` exactly once, at the head of the trace and before any
trigger action, independent of the note trigger list (`sendRequest`,
midi_router.go lines 517-532); counting publishes to the `/cmd` topic
gives exactly 1 whatever the triggers are and however many match — the
hypothesis `hne` only rules out note triggers themselves configured to
publish to the `/cmd` topic, which would add further, non-firehose
publishes there. -/
theorem firehose_once_per_event (env : HttpEnv) (r : MidiRouter)
    (channel note velocity : Nat)
    (hb : r.mqttClientBound = true) (hf : r.mqtt.disableMidiFirehose = false)
    (hne : ∀ trig ∈ r.noteTriggers, trig.mqttTopic ≠ r.mqtt.topic ++ "/cmd") :
    sendRequestActions env r channel note velocity
      = Action.mqttPublish (r.mqtt.topic ++ "/cmd") (defaultPayload channel note velocity)
          :: (r.noteTriggers.map
            (fun trig => noteTriggerActions r.mqttClientBound env trig channel note velocity)).flatten
  ∧ countPublishTo (r.mqtt.topic ++ "/cmd")
      (sendRequestActions env r channel note velocity) = 1 := by
  constructor
  · unfold sendRequestActions firehoseActions
    simp [hb, hf]
  · unfold sendRequestActions
    rw [countPublishTo_append]
    rw [countPublishTo_triggers_zero (r.mqtt.topic ++ "/cmd") r.mqttClientBound env
      channel note velocity r.noteTriggers hne]
    unfold firehoseActions countPublishTo
    simp [hb, hf]

/-- Witness for C5: the router `rTwo`, both of whose match-all triggers
fire and publish to topic `other`, still publishes to `m/cmd` exactly
once for the event (1, 2, 3). -/
theorem firehose_once_per_event_witness :
    countPublishTo (rTwo.mqtt.topic ++ "/cmd")
      (sendRequestActions henvAllOk rTwo 1 2 3) = 1 :=
  (firehose_once_per_event henvAllOk rTwo 1 2 3 rfl rfl (by decide)).2

/-- C9.  A note trigger with no MQTT topic and no URL contributes no
observable action for any event, matching or not: inserting it anywhere
in a router's trigger list leaves the action trace of `sendRequest`
unchanged. -/
theorem inert_note_trigger_no_actions (env : HttpEnv) (r1 r2 : MidiRouter)
    (trig : NoteTrigger) (l1 l2 : List NoteTrigger) (channel note velocity : Nat)
    (hmq : trig.mqttTopic = "") (hurl : trig.url = "")
    (h1 : r1.noteTriggers = l1 ++ trig :: l2) (h2 : r2.noteTriggers = l1 ++ l2)
    (hm : r1.mqtt = r2.mqtt) (hc : r1.mqttClientBound = r2.mqttClientBound) :
    noteTriggerActions r1.mqttClientBound env trig channel note velocity = []
  ∧ sendRequestActions env r1 channel note velocity
      = sendRequestActions env r2 channel note velocity := by
  have hinert : ∀ cb : Bool, noteTriggerActions cb env trig channel note velocity = [] := by
    intro cb
    unfold noteTriggerActions noteTriggerMqttActions noteTriggerHttpActions
    simp [hmq, hurl]
  refine ⟨hinert r1.mqttClientBound, ?_⟩
  unfold sendRequestActions firehoseActions
  rw [h1, h2, hm, hc]
  rw [List.map_append, List.map_cons, List.flatten_append, List.flatten_cons]
  rw [hinert r2.mqttClientBound]
  rw [List.map_append, List.flatten_append, List.nil_append]

/-- Witness for C9: adding the inert trigger `ntInert` to the otherwise
empty router `rPlain` leaves the event trace unchanged. -/
theorem inert_note_trigger_no_actions_witness :
    sendRequestActions henvAllOk rInert 1 2 3 = sendRequestActions henvAllOk rPlain 1 2 3 :=
  (inert_note_trigger_no_actions henvAllOk rInert rPlain ntInert [] [] 1 2 3
    rfl rfl rfl rfl rfl rfl).2

theorem mqttTriggerLoop_cons_false (env : MidiEnv) (base topic : String) (p : Payload)
    (t : RequestTrigger) (ts : List RequestTrigger)
    (ht : reqTriggerTopicMatches base topic t = false) :
    mqttTriggerLoop env base topic p (t :: ts) = mqttTriggerLoop env base topic p ts := by
  conv_lhs => unfold mqttTriggerLoop
  simp [ht]

theorem mqttTriggerLoop_skip (env : MidiEnv) (base topic : String) (p : Payload)
    (l rest : List RequestTrigger)
    (h : ∀ u ∈ l, reqTriggerTopicMatches base topic u = false) :
    mqttTriggerLoop env base topic p (l ++ rest) = mqttTriggerLoop env base topic p rest := by
  induction l with
  | nil => rfl
  | cons t l ih =>
    rw [List.cons_append,
      mqttTriggerLoop_cons_false env base topic p t (l ++ rest) (h t (List.mem_cons_self t l))]
    exact ih (fun u hu => h u (List.mem_cons_of_mem t hu))

theorem mqttTriggerLoop_none (env : MidiEnv) (base topic : String) (p : Payload)
    (l : List RequestTrigger)
    (h : ∀ u ∈ l, reqTriggerTopicMatches base topic u = false) :
    mqttTriggerLoop env base topic p l = ([], true) := by
  have := mqttTriggerLoop_skip env base topic p l [] h
  rw [List.append_nil] at this
  rw [this]
  rfl

/-- C6 counterexample.  Router `rC6`'s trigger listens on sub-topic
`send`, so the message topic `m/send` matches it; on a decodable payload
the trigger loop sends one event and the direct-send branch sends a
second identical one — two outbound events where the claim requires
exactly one. -/
theorem mqtt_roundtrip_cex :
    reqTriggerTopicMatches rC6.mqtt.topic "m/send" tC6 = true
  ∧ tC6.disallowPayload = false
  ∧ (mqttOnEvent envAllOk rC6 "m/send" (Payload.valid 2 64 100)).sent
      = [MidiMsg.noteOn 2 64 100, MidiMsg.noteOn 2 64 100] := by
  refine ⟨by decide, rfl, by decide⟩

/-- C6 amended.  For an MQTT message matching exactly one trigger
(absolute topic, or base + "/" + sub-topic) that allows payload, with a
payload decoding to a full record: the decoded values fully replace the
trigger's defaults and exactly one outbound note event with those values
is sent — provided the topic does not also begin with
`<base-topic>/send`, in which case the direct-send branch sends one
additional event. -/
theorem mqtt_payload_roundtrip_amended (env : MidiEnv) (r : MidiRouter)
    (t : RequestTrigger) (l1 l2 : List RequestTrigger) (topic : String)
    (channel note velocity : Nat)
    (hr : r.requestTriggers = l1 ++ t :: l2)
    (h1 : ∀ u ∈ l1, reqTriggerTopicMatches r.mqtt.topic topic u = false)
    (h2 : ∀ u ∈ l2, reqTriggerTopicMatches r.mqtt.topic topic u = false)
    (hm : reqTriggerTopicMatches r.mqtt.topic topic t = true)
    (hd : t.disallowPayload = false)
    (hs : goHasPrefix topic (r.mqtt.topic ++ "/send") = false)
    (ho : env.senderOk = true) (hall : ∀ m, env.sendOk m = true) :
    (mqttOnEvent env r topic (Payload.valid channel note velocity)).sent
      = [mkMsg channel note velocity] := by
  have hloop : mqttTriggerLoop env r.mqtt.topic topic (Payload.valid channel note velocity)
      r.requestTriggers = ([mkMsg channel note velocity], true) := by
    rw [hr, mqttTriggerLoop_skip env r.mqtt.topic topic _ l1 (t :: l2) h1]
    unfold mqttTriggerLoop
    simp [hm, payloadResolve, hd, ho, hall,
      mqttTriggerLoop_none env r.mqtt.topic topic _ l2 h2]
  unfold mqttOnEvent
  rw [hloop]
  unfold mqttAfterLoop
  simp only [hs]
  by_cases hst : (topic == r.mqtt.topic ++ "/status/check") = true
  · simp [hst]
  · simp [hst]

/-- Witness for C6's amended claim: router `rC6W` (one trigger on
sub-topic `x`) receiving topic `m/x` with payload channel 2, note 64,
velocity 100 sends exactly the note-on (2, 64, 100). -/
theorem mqtt_payload_roundtrip_amended_witness :
    (mqttOnEvent envAllOk rC6W "m/x" (Payload.valid 2 64 100)).sent
      = [mkMsg 2 64 100] :=
  mqtt_payload_roundtrip_amended envAllOk rC6W tC6W [] [] "m/x" 2 64 100 rfl
    (by simp) (by simp) (by decide) rfl (by decide) rfl (fun _ => rfl)

theorem mkMsg_ne_noteOn_zero (channel note velocity c n : Nat) :
    mkMsg channel note velocity ≠ MidiMsg.noteOn c n 0 := by
  unfold mkMsg
  split
  · intro h
    simp at h
  · next hv =>
    intro h
    injection h with h1 h2 h3
    exact hv h3

theorem handlerLoop_sent_shape (env : MidiEnv) (rawPath : String) (q : String → String) :
    ∀ (ts : List RequestTrigger) (m : MidiMsg),
      m ∈ (handlerLoop env rawPath q ts).sent → ∃ t, m = handlerMsg t q := by
  intro ts
  induction ts with
  | nil =>
    intro m hm
    simp [handlerLoop] at hm
  | cons t ts ih =>
    intro m hm
    unfold handlerLoop at hm
    split at hm
    · split at hm
      · simp at hm
      · split at hm
        · simp at hm
        · simp only [List.mem_cons] at hm
          rcases hm with rfl | hm
          · exact ⟨t, rfl⟩
          · exact ih m hm
    · exact ih m hm

theorem mqttTriggerLoop_sent_shape (env : MidiEnv) (base topic : String) (p : Payload) :
    ∀ (ts : List RequestTrigger) (m : MidiMsg),
      m ∈ (mqttTriggerLoop env base topic p ts).1 → ∃ c n v, m = mkMsg c n v := by
  intro ts
  induction ts with
  | nil =>
    intro m hm
    simp [mqttTriggerLoop] at hm
  | cons t ts ih =>
    intro m hm
    unfold mqttTriggerLoop at hm
    split at hm
    · split at hm
      · simp at hm
      · split at hm
        · simp at hm
        · split at hm
          · simp at hm
          · simp only [List.mem_cons] at hm
            rcases hm with rfl | hm
            · exact ⟨_, _, _, rfl⟩
            · exact ih m hm
    · exact ih m hm

theorem mqttAfterLoop_sent_shape (env : MidiEnv) (r : MidiRouter) (topic : String)
    (p : Payload) (loop : List MidiMsg × Bool) (m : MidiMsg)
    (hm : m ∈ (mqttAfterLoop env r topic p loop).sent) :
    m ∈ loop.1 ∨ ∃ c n v, m = mkMsg c n v := by
  unfold mqttAfterLoop at hm
  split at hm
  · exact Or.inl hm
  · split at hm
    · split at hm
      · exact Or.inl hm
      · exact Or.inl hm
      · split at hm
        · exact Or.inl hm
        · split at hm
          · exact Or.inl hm
          · simp only [List.mem_append, List.mem_singleton] at hm
            rcases hm with hm | rfl
            · exact Or.inl hm
            · exact Or.inr ⟨_, _, _, rfl⟩
    · split at hm
      · exact Or.inl hm
      · exact Or.inl hm

theorem mqttOnEvent_sent_shape (env : MidiEnv) (r : MidiRouter) (topic : String)
    (p : Payload) (m : MidiMsg) (hm : m ∈ (mqttOnEvent env r topic p).sent) :
    ∃ c n v, m = mkMsg c n v := by
  unfold mqttOnEvent at hm
  rcases mqttAfterLoop_sent_shape env r topic p _ m hm with h | h
  · exact mqttTriggerLoop_sent_shape env r.mqtt.topic topic p r.requestTriggers m h
  · exact h

/-- C7.  On every outbound synthesis path (the HTTP Handler, the MQTT
trigger loop and the direct `<base>/send` branch) a resulting velocity
of 0 yields a note-off, a non-zero velocity yields a note-on, and a
note-on with velocity 0 is never sent. -/
theorem velocity_zero_noteoff_invariant (env : MidiEnv) (r : MidiRouter)
    (rawPath topic : String) (q : String → String) (p : Payload)
    (ts : List RequestTrigger) :
    (∀ channel note, mkMsg channel note 0 = MidiMsg.noteOff channel note)
  ∧ (∀ channel note velocity, velocity ≠ 0 →
      mkMsg channel note velocity = MidiMsg.noteOn channel note velocity)
  ∧ (∀ m ∈ (handlerLoop env rawPath q ts).sent,
      ∀ channel note, m ≠ MidiMsg.noteOn channel note 0)
  ∧ (∀ m ∈ (mqttOnEvent env r topic p).sent,
      ∀ channel note, m ≠ MidiMsg.noteOn channel note 0) := by
  refine ⟨fun channel note => rfl, ?_, ?_, ?_⟩
  · intro channel note velocity hv
    simp [mkMsg, hv]
  · intro m hm channel note
    obtain ⟨t, rfl⟩ := handlerLoop_sent_shape env rawPath q ts m hm
    exact mkMsg_ne_noteOn_zero _ _ _ channel note
  · intro m hm channel note
    obtain ⟨c, n, v, rfl⟩ := mqttOnEvent_sent_shape env r topic p m hm
    exact mkMsg_ne_noteOn_zero c n v channel note

/-- Witness for C7: the trigger `tOff` (default velocity 0) fires on
`/off` and the resulting note-off is in the trace; by the theorem the
note-on (1, 2, 0) is not. -/
theorem velocity_zero_noteoff_invariant_witness :
    MidiMsg.noteOn 1 2 0 ∉ (handlerLoop envAllOk "/off" qNone [tOff]).sent := by
  intro hmem
  exact (velocity_zero_noteoff_invariant envAllOk rPlain "/off" "m/x" qNone
    Payload.empty [tOff]).2.2.1 _ hmem 1 2 rfl

/-- C8.  The MQTT session is attempted exactly when host and port are
both configured; a connect failure is fatal (process exit, never
retried); the MIDI output/input acquisition loops instead sleep a fixed
60 seconds after every failed attempt, are still retrying after any
number of failures, and bind on the first success. -/
theorem connect_mqtt_fatal_midi_retry (r : MidiRouter) (rest : List Bool) (n : Nat) :
    (mqttSessionAttempted r = true ↔ (r.mqtt.host ≠ "" ∧ r.mqtt.port ≠ 0))
  ∧ mqttConnectRun r false = ConnectOutcome.fatalExit
  ∧ midiAcquireSleeps (false :: rest) = 60 :: midiAcquireSleeps rest
  ∧ midiAcquireRun (List.replicate n false) = AcquireOutcome.stillRetrying n
  ∧ midiAcquireRun (List.replicate n false ++ [true]) = AcquireOutcome.bound n := by
  refine ⟨?_, rfl, rfl, ?_, ?_⟩
  · simp [mqttSessionAttempted, Bool.and_eq_true, bne_iff_ne]
  · induction n with
    | zero => rfl
    | succ n ih => simp [List.replicate_succ, midiAcquireRun, ih]
  · induction n with
    | zero => rfl
    | succ n ih => simp [List.replicate_succ, midiAcquireRun, ih]

/-- Witness for C8 at router `rPlain` (host `h`, port 1883 configured)
and three failed MIDI acquisition attempts. -/
theorem connect_mqtt_fatal_midi_retry_witness :
    mqttSessionAttempted rPlain = true
  ∧ mqttConnectRun rPlain false = ConnectOutcome.fatalExit
  ∧ midiAcquireRun (List.replicate 3 false) = AcquireOutcome.stillRetrying 3 :=
  ⟨(connect_mqtt_fatal_midi_retry rPlain [] 3).1.mpr (by decide),
    (connect_mqtt_fatal_midi_retry rPlain [] 3).2.1,
    (connect_mqtt_fatal_midi_retry rPlain [] 3).2.2.2.1⟩

/-- C10.  For every MQTT message whose topic merely has
`<base-topic>/send` as a string prefix: the status branch never runs;
an empty payload adds nothing beyond the trigger loop; and a decodable
payload makes the direct-send branch fire (one extra event) even when
the topic is not exactly `<base-topic>/send`. -/
theorem send_branch_string_prefix (env : MidiEnv) (r : MidiRouter) (topic : String)
    (p : Payload)
    (hp : goHasPrefix topic (r.mqtt.topic ++ "/send") = true) :
    ((mqttOnEvent env r topic p).statusPublished = false)
  ∧ (p = Payload.empty → (mqttOnEvent env r topic p).sent
      = (mqttTriggerLoop env r.mqtt.topic topic p r.requestTriggers).1)
  ∧ (∀ channel note velocity, p = Payload.valid channel note velocity →
      env.senderOk = true → (∀ m, env.sendOk m = true) →
      (mqttTriggerLoop env r.mqtt.topic topic p r.requestTriggers).2 = true →
      (mqttOnEvent env r topic p).sent
        = (mqttTriggerLoop env r.mqtt.topic topic p r.requestTriggers).1
            ++ [mkMsg channel note velocity]) := by
  refine ⟨?_, ?_, ?_⟩
  · unfold mqttOnEvent mqttAfterLoop
    by_cases h2 : (mqttTriggerLoop env r.mqtt.topic topic p r.requestTriggers).2 = false
    · simp [h2]
    · cases p with
      | empty => simp [h2, hp]
      | invalid => simp [h2, hp]
      | valid channel note velocity =>
        by_cases ho : env.senderOk = false
        · simp [h2, hp, ho]
        · by_cases hso : env.sendOk (mkMsg channel note velocity) = false
          · simp [h2, hp, ho, hso]
          · simp [h2, hp, ho, hso]
  · intro hpe
    subst hpe
    unfold mqttOnEvent mqttAfterLoop
    by_cases h2 : (mqttTriggerLoop env r.mqtt.topic topic Payload.empty r.requestTriggers).2 = false
    · simp [h2]
    · simp [h2, hp]
  · intro channel note velocity hpv ho hall h2
    subst hpv
    unfold mqttOnEvent mqttAfterLoop
    simp [h2, hp, ho, hall]

/-- Witness for C10: topic `m/sendX` (a strict extension of `m/send`) on
the trigger-free router `rPlain` with payload (2, 64, 100) fires the
direct-send branch and publishes no status. -/
theorem send_branch_string_prefix_witness :
    (mqttOnEvent envAllOk rPlain "m/sendX" (Payload.valid 2 64 100)).statusPublished = false
  ∧ (mqttOnEvent envAllOk rPlain "m/sendX" (Payload.valid 2 64 100)).sent
      = [mkMsg 2 64 100] := by
  have h := send_branch_string_prefix envAllOk rPlain "m/sendX"
    (Payload.valid 2 64 100) (by decide)
  refine ⟨h.1, ?_⟩
  have h3 := h.2.2 2 64 100 rfl rfl (fun _ => rfl) (by decide)
  rw [h3]
  decide

end MidiRequestTrigger
